import Mathlib

/-!
# Verification of the A2A protocol core (`src/agents/protocols/protocol.py`)

Shallow embedding of the agent-to-agent messaging substrate: message
envelopes, the agent directory, the handler registry, the correlation
table (`pending_responses`) and the protocol engine's inbound/outbound
paths.  Python dictionaries are modelled as insertion-ordered association
lists, `uuid4`/`datetime.now` nondeterminism is threaded as explicit
`fresh`/`now` parameters, coroutine handlers are pure functions returning
`Except` (the `String` carries `str(e)` of a raised exception), and the
asyncio future of a pending request is modelled by reporting each
resolution `(key, message)` that `handle_message` delivers to a waiting
future.  The event loop driving `request_and_wait` is modelled
sequentially: the inbound messages processed during the wait window are a
list, and the timeout fires exactly when none of them resolved the
request's correlation entry.
-/

namespace A2A

/-- Python values appearing in message payloads (JSON-like). -/
inductive Value : Type where
  | str (s : String)
  | nat (n : Nat)
  | bool (b : Bool)
  | dict (kvs : List (String × Value))
  | null

/-- A payload is a Python `Dict[str, Any]`: an insertion-ordered association list. -/
abbrev Payload := List (String × Value)

/-- `MessageType` enum of `protocol.py`: request / response / notification / error. -/
inductive MessageType : Type where
  | request
  | response
  | notification
  | error
  deriving Repr, DecidableEq

/-- `AgentCapability` enum of `protocol.py`. -/
inductive AgentCapability : Type where
  | data_retrieval
  | data_analysis
  | task_execution
  | reasoning
  deriving Repr, DecidableEq

/-- `A2AMessage`: the envelope.  `message_id` and `timestamp` are filled at
construction from the threaded `fresh`/`now` parameters (`uuid4`,
`datetime.now` in the source); `receiver_id = none` means broadcast;
`in_reply_to` is optional and nothing in the source validates it against
`message_type`. -/
structure A2AMessage : Type where
  message_id : String
  message_type : MessageType
  sender_id : String
  receiver_id : Option String
  timestamp : Nat
  payload : Payload
  in_reply_to : Option String

/-- `AgentInfo` record of `protocol.py`. -/
structure AgentInfo : Type where
  agent_id : String
  name : String
  capabilities : List AgentCapability
  endpoint : String
  status : String := "active"
  deriving Repr, DecidableEq

/-- A registered action handler: in the source an async callable taking the
whole message payload; a raise is modelled as `Except.error (str e)`. -/
abbrev Handler := Payload → Except String Value

/-- First-match association-list lookup: Python `d[k]` / `d.get(k)` on the
key sequence of an insertion-ordered dict (keys are unique there, so
first-match agrees with the dict). -/
def assocLookup {α : Type} : List (String × α) → String → Option α
  | [], _ => none
  | (k, v) :: t, k' => if k = k' then some v else assocLookup t k'

/-- Python dict assignment `d[k] = v`: overwrite in place if the key
exists (keeping its position in insertion order), else append. -/
def dictInsert {α : Type} : List (String × α) → String → α → List (String × α)
  | [], k, v => [(k, v)]
  | (k', v') :: t, k, v =>
      if k' = k then (k, v) :: t else (k', v') :: dictInsert t k v

/-- Python `payload.get("action")`: the stored value, or `None` when the
key is absent. -/
def pyGet (p : Payload) (k : String) : Value :=
  (assocLookup p k).getD Value.null

/-- Python `str(...)` as used by the f-string `f"Unknown action: {action}"`.
The claims only ever evaluate this on a string or on `None`; the `dict`
branch (which Python would render via `repr`) is abstracted to a fixed
token, no theorem in this file depends on it. -/
def pyStr : Value → String
  | Value.str s => s
  | Value.nat n => toString n
  | Value.bool true => "True"
  | Value.bool false => "False"
  | Value.null => "None"
  | Value.dict _ => "\x7bdict\x7d"

/-- The mutable state of one `A2AProtocol` instance.  `known_agents` and
`message_handlers` are insertion-ordered dicts; `pending_responses` maps
message ids to asyncio futures — only the key set is observable here (the
future's eventual value is reported through `HandleResult.resolved`). -/
structure A2AProtocol : Type where
  agent_id : String
  agent_name : String
  capabilities : List AgentCapability
  known_agents : List (String × AgentInfo)
  message_handlers : List (String × Handler)
  pending_responses : List String

/-- `A2AProtocol.__init__`: empty directory, registry and correlation table. -/
def A2AProtocol.init (agent_id agent_name : String)
    (capabilities : List AgentCapability) : A2AProtocol :=
  { agent_id := agent_id, agent_name := agent_name, capabilities := capabilities,
    known_agents := [], message_handlers := [], pending_responses := [] }

/-- `register_handler`: `self.message_handlers[action] = handler`. -/
def register_handler (p : A2AProtocol) (action : String) (handler : Handler) :
    A2AProtocol :=
  { p with message_handlers := dictInsert p.message_handlers action handler }

/-- `register_agent`: `self.known_agents[agent_info.agent_id] = agent_info`. -/
def register_agent (p : A2AProtocol) (info : AgentInfo) : A2AProtocol :=
  { p with known_agents := dictInsert p.known_agents info.agent_id info }

/-- `get_agents_by_capability`: filter `known_agents.values()` (insertion
order) by capability membership. -/
def get_agents_by_capability (p : A2AProtocol) (capability : AgentCapability) :
    List AgentInfo :=
  (p.known_agents.map Prod.snd).filter fun agent => agent.capabilities.contains capability

/-- `get_agent_info`: this agent's own record, built from configuration. -/
def get_agent_info (p : A2AProtocol) : AgentInfo :=
  { agent_id := p.agent_id, name := p.agent_name, capabilities := p.capabilities,
    endpoint := "agent://" ++ p.agent_id, status := "active" }

/-- `send_message`: constructs an `A2AMessage` stamped with this engine's
`sender_id`, a fresh id and the current time, then returns it.  The source
performs no validation whatsoever — any `message_type`/`in_reply_to`
combination is accepted and an envelope is always returned. -/
def send_message (p : A2AProtocol) (fresh : String) (now : Nat)
    (receiver_id : Option String) (message_type : MessageType)
    (payload : Payload) (in_reply_to : Option String) : A2AMessage :=
  { message_id := fresh, message_type := message_type, sender_id := p.agent_id,
    receiver_id := receiver_id, timestamp := now, payload := payload,
    in_reply_to := in_reply_to }

/-- Result of `handle_message`: the updated protocol state, the optional
reply envelope returned to the transport, and — when the first branch
fired — the `(key, message)` pair delivered to the pending future via
`future.set_result(message)` after `pending_responses.pop(key)`. -/
structure HandleResult : Type where
  state : A2AProtocol
  reply : Option A2AMessage
  resolved : Option (String × A2AMessage)

/-- The dispatch phase of `handle_message` (reached when the correlation
branch did not fire): a `Request` is routed through the handler registry,
everything else is dropped. -/
def dispatch (p : A2AProtocol) (fresh : String) (now : Nat)
    (message : A2AMessage) : HandleResult :=
  if message.message_type = MessageType.request then
    match pyGet message.payload "action" with
    | Value.str a =>
      match assocLookup p.message_handlers a with
      | some handler =>
        match handler message.payload with
        | Except.ok result =>
            { state := p,
              reply := some (send_message p fresh now (some message.sender_id)
                MessageType.response
                [("result", result), ("success", Value.bool true)]
                (some message.message_id)),
              resolved := none }
        | Except.error e =>
            { state := p,
              reply := some (send_message p fresh now (some message.sender_id)
                MessageType.error
                [("error", Value.str e), ("success", Value.bool false)]
                (some message.message_id)),
              resolved := none }
      | none =>
          { state := p,
            reply := some (send_message p fresh now (some message.sender_id)
              MessageType.error
              [("error", Value.str ("Unknown action: " ++ a)),
               ("success", Value.bool false)]
              (some message.message_id)),
            resolved := none }
    | other =>
        { state := p,
          reply := some (send_message p fresh now (some message.sender_id)
            MessageType.error
            [("error", Value.str ("Unknown action: " ++ pyStr other)),
             ("success", Value.bool false)]
            (some message.message_id)),
          resolved := none }
  else
    { state := p, reply := none, resolved := none }

/-- `handle_message`.  First branch (Python
`if message.in_reply_to and message.in_reply_to in self.pending_responses`,
note the truthiness test: an empty string never matches): pop the pending
entry, deliver the message to its future, return nothing.  Otherwise
dispatch by message type. -/
def handle_message (p : A2AProtocol) (fresh : String) (now : Nat)
    (message : A2AMessage) : HandleResult :=
  match message.in_reply_to with
  | some key =>
      if key ≠ "" ∧ key ∈ p.pending_responses then
        { state := { p with pending_responses := p.pending_responses.erase key },
          reply := none,
          resolved := some (key, message) }
      else
        dispatch p fresh now message
  | none => dispatch p fresh now message

/-- Fresh message ids handed out by the event loop while replies are
synthesized inside the wait window (stands for `uuid4`). -/
def freshId (n : Nat) : String := "id-" ++ toString n

/-- The event loop during a `request_and_wait` window, modelled
sequentially: each inbound message is fed to `handle_message`; all future
resolutions are collected in order. -/
def processInbox : A2AProtocol → Nat → List A2AMessage →
    A2AProtocol × List (String × A2AMessage)
  | p, _, [] => (p, [])
  | p, g, m :: ms =>
      let r := handle_message p (freshId g) g m
      let rest := processInbox r.state (g + 1) ms
      (rest.1, (r.resolved.toList) ++ rest.2)

/-- The resolutions delivered for one correlation key. -/
def resFor (key : String) (rs : List (String × A2AMessage)) :
    List (String × A2AMessage) :=
  rs.filter fun r => r.1 = key

/-- Dict-key insertion `self.pending_responses[key] = future`: an existing
key would be overwritten in place, a new key is appended in insertion
order (in the source the keys are fresh uuids, so the first branch never
fires). -/
def insertPending (p : A2AProtocol) (key : String) : A2AProtocol :=
  { p with pending_responses :=
      if key ∈ p.pending_responses then p.pending_responses
      else p.pending_responses ++ [key] }

/-- `request_and_wait`: build and "send" the `Request` envelope, insert a
pending entry keyed by the fresh message id, then suspend.  The suspension
is modelled by the inbound messages `inbox` processed before the timeout
fires: if one of them resolved this entry, its payload is returned;
otherwise `asyncio.TimeoutError` is caught, the entry is popped with a
default (`pop(key, None)`) and `None` is returned. -/
def request_and_wait (p : A2AProtocol) (fresh : String) (now : Nat) (gen : Nat)
    (receiver_id : String) (action : String) (params : Value)
    (inbox : List A2AMessage) : A2AProtocol × Option Payload :=
  let message := send_message p fresh now (some receiver_id) MessageType.request
    [("action", Value.str action), ("params", params)] none
  let pr := processInbox (insertPending p message.message_id) gen inbox
  match (resFor message.message_id pr.2).head? with
  | some r => (pr.1, some r.2.payload)
  | none =>
      ({ pr.1 with pending_responses := pr.1.pending_responses.erase message.message_id },
       none)

/-- The resolutions the event loop delivers during one
`request_and_wait` window (the request's entry freshly inserted). -/
def awaitResolutions (p : A2AProtocol) (fresh : String) (gen : Nat)
    (inbox : List A2AMessage) : List (String × A2AMessage) :=
  (processInbox (insertPending p fresh) gen inbox).2

/-- Does the correlation branch of `handle_message` fire for `m` in state
`p`?  (Python: `message.in_reply_to and message.in_reply_to in
self.pending_responses`.) -/
def resolvesPending (p : A2AProtocol) (m : A2AMessage) : Prop :=
  ∃ key, m.in_reply_to = some key ∧ key ≠ "" ∧ key ∈ p.pending_responses

instance (p : A2AProtocol) (m : A2AMessage) : Decidable (resolvesPending p m) := by
  unfold resolvesPending
  cases m.in_reply_to with
  | none => exact Decidable.isFalse (by simp)
  | some k => exact decidable_of_iff (k ≠ "" ∧ k ∈ p.pending_responses) (by simp)

/-! ## Concrete fixtures used by counterexamples and witnesses -/

/-- The engine instance wired up in `src/main.py`. -/
def p0 : A2AProtocol :=
  A2AProtocol.init "reportero" "Reportero"
    [AgentCapability.data_retrieval, AgentCapability.data_analysis]

/-- A handler that reports which argument it was invoked with: it returns
the `"action"` entry of its argument dict.  Invoked with the whole request
payload it sees the action string; invoked with `payload["params"]` it
would see `None`. -/
def echoActionHandler : Handler := fun pl => Except.ok (pyGet pl "action")

/-- `p0` with `echoActionHandler` registered for action `"echo"`. -/
def echoProtocol : A2AProtocol := register_handler p0 "echo" echoActionHandler

/-- A well-formed inbound request for action `"echo"` with params
`{"x": 1}`. -/
def echoRequest : A2AMessage :=
  { message_id := "m-1", message_type := MessageType.request,
    sender_id := "agent-b", receiver_id := some "reportero", timestamp := 0,
    payload := [("action", Value.str "echo"),
                ("params", Value.dict [("x", Value.nat 1)])],
    in_reply_to := none }

/-- The response envelope `handle_message` synthesizes for `echoRequest`
(fresh id `"m-2"`, time `1`). -/
def echoReply : A2AMessage :=
  { message_id := "m-2", message_type := MessageType.response,
    sender_id := "reportero", receiver_id := some "agent-b", timestamp := 1,
    payload := [("result", Value.str "echo"), ("success", Value.bool true)],
    in_reply_to := some "m-1" }

/-- A `Response` envelope constructed by `send_message` with
`in_reply_to = None`: the source accepts it without any validation. -/
def unsolicitedResponse : A2AMessage :=
  send_message p0 "resp-0" 5 (some "peer") MessageType.response
    [("result", Value.null), ("success", Value.bool true)] none

/-- A response envelope from a peer answering the request keyed `key`. -/
def replyTo (key : String) : A2AMessage :=
  { message_id := "resp-1", message_type := MessageType.response,
    sender_id := "peer", receiver_id := some "reportero", timestamp := 1,
    payload := [("result", Value.nat 7), ("success", Value.bool true)],
    in_reply_to := some key }

/-- A handler that always raises (`raise Exception("kaput")` in Python
terms). -/
def failingHandler : Handler := fun _ => Except.error "kaput"

/-- `p0` with `failingHandler` registered for action `"boom"`. -/
def failProtocol : A2AProtocol := register_handler p0 "boom" failingHandler

/-- An inbound request for the failing action `"boom"`. -/
def failRequest : A2AMessage :=
  { message_id := "m-b", message_type := MessageType.request,
    sender_id := "agent-c", receiver_id := some "reportero", timestamp := 0,
    payload := [("action", Value.str "boom"), ("params", Value.dict [])],
    in_reply_to := none }

/-- An inbound request whose payload lacks an `"action"` key. -/
def noActionRequest : A2AMessage :=
  { message_id := "m-n", message_type := MessageType.request,
    sender_id := "agent-d", receiver_id := some "reportero", timestamp := 0,
    payload := [("params", Value.dict [("q", Value.str "news")])],
    in_reply_to := none }

/-- `echoProtocol` with one live pending request keyed `"req-9"`. -/
def busyEchoProtocol : A2AProtocol :=
  { echoProtocol with pending_responses := ["req-9"] }

/-- `echoRequest` with `in_reply_to` naming the live pending entry: a
`Request` whose action has a registered handler, yet claiming a
correlation. -/
def echoRequestReplying : A2AMessage :=
  { echoRequest with in_reply_to := some "req-9" }

/-- Directory fixture: agent with capability set `{A}` (A = data_retrieval). -/
def agentAlpha : AgentInfo :=
  { agent_id := "alpha", name := "Alpha",
    capabilities := [AgentCapability.data_retrieval],
    endpoint := "agent://alpha", status := "active" }

/-- Directory fixture: agent with capability set `{B}` (B = data_analysis). -/
def agentBeta : AgentInfo :=
  { agent_id := "beta", name := "Beta",
    capabilities := [AgentCapability.data_analysis],
    endpoint := "agent://beta", status := "active" }

/-- Directory fixture: agent with capability set `{A, B}`. -/
def agentGamma : AgentInfo :=
  { agent_id := "gamma", name := "Gamma",
    capabilities := [AgentCapability.data_retrieval, AgentCapability.data_analysis],
    endpoint := "agent://gamma", status := "active" }

/-- `p0` after registering `agentAlpha`, `agentBeta`, `agentGamma` in that
order. -/
def threeAgentDirectory : A2AProtocol :=
  register_agent (register_agent (register_agent p0 agentAlpha) agentBeta) agentGamma

/-! ## Structural lemmas about the inbound path -/

/-- The dispatch phase never mutates the protocol state. -/
theorem dispatch_state (p : A2AProtocol) (fresh : String) (now : Nat)
    (m : A2AMessage) : (dispatch p fresh now m).state = p := by
  unfold dispatch
  split
  · split
    · split
      · split <;> rfl
      · rfl
    · rfl
  · rfl

/-- The dispatch phase never resolves a pending future. -/
theorem dispatch_resolved (p : A2AProtocol) (fresh : String) (now : Nat)
    (m : A2AMessage) : (dispatch p fresh now m).resolved = none := by
  unfold dispatch
  split
  · split
    · split
      · split <;> rfl
      · rfl
    · rfl
  · rfl

/-- When the correlation branch does not fire, `handle_message` is exactly
the dispatch phase. -/
theorem handle_message_eq_dispatch (p : A2AProtocol) (fresh : String)
    (now : Nat) (m : A2AMessage) (h : ¬ resolvesPending p m) :
    handle_message p fresh now m = dispatch p fresh now m := by
  unfold handle_message
  cases hin : m.in_reply_to with
  | none => rfl
  | some key => exact if_neg fun hg => h ⟨key, hin, hg.1, hg.2⟩

/-- When the correlation branch fires, `handle_message` pops the entry,
delivers the message to the future and returns nothing. -/
theorem handle_message_resolves (p : A2AProtocol) (fresh : String)
    (now : Nat) (m : A2AMessage) (key : String)
    (hin : m.in_reply_to = some key) (hne : key ≠ "")
    (hmem : key ∈ p.pending_responses) :
    handle_message p fresh now m =
      { state := { p with pending_responses := p.pending_responses.erase key },
        reply := none,
        resolved := some (key, m) } := by
  unfold handle_message
  rw [hin]
  exact if_pos ⟨hne, hmem⟩

/-- Every reply envelope `handle_message` emits is a `Response` or an
`Error`, addressed back to the inbound message's sender, with
`in_reply_to` set to the inbound message's id. -/
theorem reply_shape (p : A2AProtocol) (fresh : String) (now : Nat)
    (m rep : A2AMessage)
    (h : (handle_message p fresh now m).reply = some rep) :
    (rep.message_type = MessageType.response ∨
     rep.message_type = MessageType.error) ∧
    rep.receiver_id = some m.sender_id ∧
    rep.in_reply_to = some m.message_id := by
  by_cases hr : resolvesPending p m
  · obtain ⟨key, hin, hne, hmem⟩ := hr
    rw [handle_message_resolves p fresh now m key hin hne hmem] at h
    exact absurd h (by simp)
  · rw [handle_message_eq_dispatch p fresh now m hr] at h
    unfold dispatch at h
    split at h
    · split at h
      · split at h
        · split at h
          · cases h
            exact ⟨Or.inl rfl, rfl, rfl⟩
          · cases h
            exact ⟨Or.inr rfl, rfl, rfl⟩
        · cases h
          exact ⟨Or.inr rfl, rfl, rfl⟩
      · cases h
        exact ⟨Or.inr rfl, rfl, rfl⟩
    · exact absurd h (by simp)

/-- `handle_message` either leaves the correlation table untouched and
resolves nothing, or pops exactly one live key and delivers the inbound
message to its future. -/
theorem handle_message_cases (p : A2AProtocol) (fresh : String) (now : Nat)
    (m : A2AMessage) :
    ((handle_message p fresh now m).resolved = none ∧
     (handle_message p fresh now m).state.pending_responses =
       p.pending_responses) ∨
    ∃ key, key ∈ p.pending_responses ∧
      (handle_message p fresh now m).resolved = some (key, m) ∧
      (handle_message p fresh now m).state.pending_responses =
        p.pending_responses.erase key := by
  by_cases hr : resolvesPending p m
  · obtain ⟨key, hin, hne, hmem⟩ := hr
    right
    refine ⟨key, hmem, ?_, ?_⟩ <;>
      rw [handle_message_resolves p fresh now m key hin hne hmem]
  · left
    rw [handle_message_eq_dispatch p fresh now m hr]
    exact ⟨dispatch_resolved p fresh now m, by rw [dispatch_state]⟩

/-! ## Lemmas about the event loop of one wait window -/

theorem processInbox_cons_fst (p : A2AProtocol) (g : Nat) (m : A2AMessage)
    (ms : List A2AMessage) :
    (processInbox p g (m :: ms)).1 =
      (processInbox (handle_message p (freshId g) g m).state (g + 1) ms).1 :=
  rfl

theorem processInbox_cons_snd (p : A2AProtocol) (g : Nat) (m : A2AMessage)
    (ms : List A2AMessage) :
    (processInbox p g (m :: ms)).2 =
      (handle_message p (freshId g) g m).resolved.toList ++
        (processInbox (handle_message p (freshId g) g m).state (g + 1) ms).2 :=
  rfl

/-- The correlation table only ever shrinks while inbound messages are
processed: no entry is created by the inbound path. -/
theorem processInbox_pending_sublist (ms : List A2AMessage) (p : A2AProtocol)
    (g : Nat) :
    (processInbox p g ms).1.pending_responses.Sublist p.pending_responses := by
  induction ms generalizing p g with
  | nil => exact List.Sublist.refl _
  | cons m ms ih =>
      rw [processInbox_cons_fst]
      refine (ih _ _).trans ?_
      rcases handle_message_cases p (freshId g) g m with ⟨_, hpend⟩ |
        ⟨key, _, _, hpend⟩
      · rw [hpend]
      · rw [hpend]
        exact List.erase_sublist _ _

theorem resFor_cons_self (key : String) (m : A2AMessage)
    (rs : List (String × A2AMessage)) :
    resFor key ((key, m) :: rs) = (key, m) :: resFor key rs := by
  simp [resFor]

theorem resFor_cons_ne (key k : String) (m : A2AMessage)
    (rs : List (String × A2AMessage)) (h : k ≠ key) :
    resFor key ((k, m) :: rs) = resFor key rs := by
  simp [resFor, h]

/-- Conservation of correlation entries: every resolution delivered for a
key consumed exactly one pending occurrence of that key, so the number of
resolutions plus the remaining occurrences equals the initial
occurrences. -/
theorem processInbox_count (ms : List A2AMessage) (p : A2AProtocol) (g : Nat)
    (key : String) :
    (resFor key (processInbox p g ms).2).length +
        (processInbox p g ms).1.pending_responses.count key =
      p.pending_responses.count key := by
  induction ms generalizing p g with
  | nil => simp [processInbox, resFor]
  | cons m ms ih =>
      rw [processInbox_cons_fst, processInbox_cons_snd]
      rcases handle_message_cases p (freshId g) g m with ⟨hres, hpend⟩ |
        ⟨k, hmem, hres, hpend⟩
      · rw [hres]
        simpa [hpend] using ih (handle_message p (freshId g) g m).state (g + 1)
      · rw [hres]
        have hcount := ih (handle_message p (freshId g) g m).state (g + 1)
        rw [hpend] at hcount
        rw [Option.toList_some, List.singleton_append]
        by_cases hk : k = key
        · subst hk
          rw [List.count_erase_self] at hcount
          have hpos : 0 < p.pending_responses.count k :=
            List.count_pos_iff.mpr hmem
          rw [resFor_cons_self, List.length_cons]
          omega
        · rw [resFor_cons_ne key k m _ hk,
            List.count_erase_of_ne (fun h => hk h.symm)] at *
          exact hcount

theorem awaitResolutions_def (p : A2AProtocol) (fresh : String) (gen : Nat)
    (inbox : List A2AMessage) :
    awaitResolutions p fresh gen inbox =
      (processInbox (insertPending p fresh) gen inbox).2 :=
  rfl

theorem insertPending_not_mem (p : A2AProtocol) (key : String)
    (h : key ∉ p.pending_responses) :
    (insertPending p key).pending_responses = p.pending_responses ++ [key] := by
  unfold insertPending
  simp [h]

theorem insertPending_count (p : A2AProtocol) (key : String)
    (h : key ∉ p.pending_responses) :
    (insertPending p key).pending_responses.count key = 1 := by
  rw [insertPending_not_mem p key h, List.count_append]
  simp [List.count_eq_zero.mpr h]

theorem resFor_key_eq {key : String} {rs : List (String × A2AMessage)}
    {x : String × A2AMessage} (h : x ∈ resFor key rs) : x.1 = key := by
  simp only [resFor, List.mem_filter, decide_eq_true_eq] at h
  exact h.2

/-- The caller-visible outcome of `request_and_wait`: the payload of the
first (and, below, only) message resolving the fresh entry, else the
timeout value `None`. -/
theorem request_and_wait_snd (p : A2AProtocol) (fresh : String)
    (now gen : Nat) (receiver_id action : String) (params : Value)
    (inbox : List A2AMessage) :
    (request_and_wait p fresh now gen receiver_id action params inbox).2 =
      ((resFor fresh (awaitResolutions p fresh gen inbox)).head?).map
        (fun r => r.2.payload) := by
  unfold request_and_wait awaitResolutions
  dsimp only [send_message]
  cases h : (resFor fresh (processInbox (insertPending p fresh) gen inbox).2).head? with
  | none => rfl
  | some r => rfl

/-- The protocol state `request_and_wait` leaves behind on the timeout
path. -/
theorem request_and_wait_fst_timeout (p : A2AProtocol) (fresh : String)
    (now gen : Nat) (receiver_id action : String) (params : Value)
    (inbox : List A2AMessage)
    (hnores : resFor fresh (awaitResolutions p fresh gen inbox) = []) :
    (request_and_wait p fresh now gen receiver_id action params inbox).1.pending_responses =
      (processInbox (insertPending p fresh) gen inbox).1.pending_responses.erase
        fresh := by
  rw [awaitResolutions_def] at hnores
  unfold request_and_wait
  dsimp only [send_message]
  rw [hnores]
  rfl

/-! ## Claim theorems -/

/-- **C1, counterexample.**  The claim states that for every constructed
envelope `in_reply_to` is present iff the kind is `Response` or `Error`,
and that construction fails with `MalformedMessage` when this is
violated.  But `unsolicitedResponse` is constructed by `send_message`
with kind `response` and `in_reply_to` absent: construction returned this
invariant-violating envelope instead of failing — the source performs no
validation and defines no `MalformedMessage` at all (`send_message` is
total into `A2AMessage`). -/
theorem c1_no_validation_counterexample :
    unsolicitedResponse =
      send_message p0 "resp-0" 5 (some "peer") MessageType.response
        [("result", Value.null), ("success", Value.bool true)] none ∧
    unsolicitedResponse.message_type = MessageType.response ∧
    unsolicitedResponse.in_reply_to = none ∧
    ¬ ((unsolicitedResponse.message_type = MessageType.response ∨
        unsolicitedResponse.message_type = MessageType.error) →
       unsolicitedResponse.in_reply_to ≠ none) :=
  ⟨rfl, rfl, rfl, by decide⟩

/-- **C1, amended.**  Envelope construction performs no kind/`in_reply_to`
validation: `send_message` always returns an envelope carrying exactly the
supplied kind and `in_reply_to` and never fails with `MalformedMessage`.
The invariant does hold for every reply envelope the engine itself emits:
any reply produced by `handle_message` has kind `Response` or `Error` and
`in_reply_to` set to the handled request's message id. -/
theorem c1_envelope_invariant_amended (p : A2AProtocol) (fresh : String)
    (now : Nat) (receiver_id : Option String) (mt : MessageType)
    (pl : Payload) (irt : Option String) (m rep : A2AMessage)
    (hrep : (handle_message p fresh now m).reply = some rep) :
    (send_message p fresh now receiver_id mt pl irt).message_type = mt ∧
    (send_message p fresh now receiver_id mt pl irt).in_reply_to = irt ∧
    (rep.message_type = MessageType.response ∨
      rep.message_type = MessageType.error) ∧
    rep.in_reply_to = some m.message_id :=
  ⟨rfl, rfl, (reply_shape p fresh now m rep hrep).1,
    (reply_shape p fresh now m rep hrep).2.2⟩

/-- Witness for `c1_envelope_invariant_amended` at a concrete input. -/
theorem c1_envelope_invariant_amended_witness :
    (handle_message echoProtocol "m-2" 1 echoRequest).reply =
      some echoReply ∧
    ((send_message echoProtocol "m-2" 1 (some "peer")
        MessageType.notification [] none).message_type =
      MessageType.notification ∧
     (send_message echoProtocol "m-2" 1 (some "peer")
        MessageType.notification [] none).in_reply_to = none ∧
     (echoReply.message_type = MessageType.response ∨
      echoReply.message_type = MessageType.error) ∧
     echoReply.in_reply_to = some echoRequest.message_id) :=
  ⟨rfl, c1_envelope_invariant_amended echoProtocol "m-2" 1 (some "peer")
    MessageType.notification [] none echoRequest echoReply rfl⟩

/-- **C2.**  For every `request_and_wait` call (modelled over any sequence
of inbound messages processed during the wait window), exactly one
resolution is observed by the caller: the future receives at most one
resolution; either exactly one matching message (a response or an error —
its `message_type` is carried in the resolution) was delivered and the
caller gets its payload, or no matching message was delivered and the
caller gets the timeout outcome `none`; and never both.  The hypothesis
reflects that the request's message id is a fresh uuid. -/
theorem c2_exactly_one_resolution (p : A2AProtocol) (fresh : String)
    (now gen : Nat) (receiver_id action : String) (params : Value)
    (inbox : List A2AMessage) (hfresh : fresh ∉ p.pending_responses) :
    (resFor fresh (awaitResolutions p fresh gen inbox)).length ≤ 1 ∧
    ((∃ m, resFor fresh (awaitResolutions p fresh gen inbox) = [(fresh, m)] ∧
        (request_and_wait p fresh now gen receiver_id action params inbox).2 =
          some m.payload) ∨
     (resFor fresh (awaitResolutions p fresh gen inbox) = [] ∧
      (request_and_wait p fresh now gen receiver_id action params inbox).2 =
        none)) ∧
    ¬ ((∃ m, resFor fresh (awaitResolutions p fresh gen inbox) = [(fresh, m)]) ∧
       resFor fresh (awaitResolutions p fresh gen inbox) = []) := by
  have hcons := processInbox_count inbox (insertPending p fresh) gen fresh
  rw [insertPending_count p fresh hfresh, ← awaitResolutions_def] at hcons
  have hsnd := request_and_wait_snd p fresh now gen receiver_id action params
    inbox
  refine ⟨by omega, ?_, ?_⟩
  · cases hR : resFor fresh (awaitResolutions p fresh gen inbox) with
    | nil =>
        right
        refine ⟨rfl, ?_⟩
        rw [hsnd, hR]
        rfl
    | cons x xs =>
        left
        have hmem : x ∈ resFor fresh (awaitResolutions p fresh gen inbox) := by
          rw [hR]
          exact List.mem_cons_self x xs
        have hx : x.1 = fresh := resFor_key_eq hmem
        have hxs : xs = [] := by
          rw [hR] at hcons
          simp only [List.length_cons] at hcons
          exact List.length_eq_zero.mp (by omega)
        subst hxs
        have hpair : (fresh, x.2) = x := by
          rw [← hx]
        refine ⟨x.2, ?_, ?_⟩
        · rw [hpair]
        · rw [hsnd, hR]
          rfl
  · rintro ⟨⟨m, hm⟩, hnil⟩
    rw [hnil] at hm
    exact List.noConfusion hm

/-- Witness for `c2_exactly_one_resolution`: a peer response delivered
inside the window resolves the request exactly once. -/
theorem c2_exactly_one_resolution_witness :
    "req-1" ∉ p0.pending_responses ∧
    ((resFor "req-1" (awaitResolutions p0 "req-1" 0 [replyTo "req-1"])).length ≤ 1 ∧
     ((∃ m, resFor "req-1" (awaitResolutions p0 "req-1" 0 [replyTo "req-1"]) =
          [("req-1", m)] ∧
        (request_and_wait p0 "req-1" 0 0 "peer" "echo" Value.null
            [replyTo "req-1"]).2 = some m.payload) ∨
      (resFor "req-1" (awaitResolutions p0 "req-1" 0 [replyTo "req-1"]) = [] ∧
       (request_and_wait p0 "req-1" 0 0 "peer" "echo" Value.null
           [replyTo "req-1"]).2 = none)) ∧
     ¬ ((∃ m, resFor "req-1" (awaitResolutions p0 "req-1" 0 [replyTo "req-1"]) =
          [("req-1", m)]) ∧
        resFor "req-1" (awaitResolutions p0 "req-1" 0 [replyTo "req-1"]) = [])) :=
  ⟨by decide, c2_exactly_one_resolution p0 "req-1" 0 0 "peer" "echo"
    Value.null [replyTo "req-1"] (by decide)⟩

/-- **C3.**  A `request_and_wait` call that expires with no matching
resolution returns the distinguished timeout outcome `none` (no exception:
the function is total), removes the correlation entry for the request's
message id, and inserts nothing new into the correlation table (no retry
at this layer): the final table is a sublist of the original one. -/
theorem c3_timeout_removes_entry (p : A2AProtocol) (fresh : String)
    (now gen : Nat) (receiver_id action : String) (params : Value)
    (inbox : List A2AMessage)
    (hfresh : fresh ∉ p.pending_responses)
    (hnores : resFor fresh (awaitResolutions p fresh gen inbox) = []) :
    (request_and_wait p fresh now gen receiver_id action params inbox).2 =
      none ∧
    fresh ∉ (request_and_wait p fresh now gen receiver_id action params
        inbox).1.pending_responses ∧
    (request_and_wait p fresh now gen receiver_id action params
        inbox).1.pending_responses.Sublist p.pending_responses := by
  have hsnd := request_and_wait_snd p fresh now gen receiver_id action params
    inbox
  have hfst := request_and_wait_fst_timeout p fresh now gen receiver_id action
    params inbox hnores
  have hcons := processInbox_count inbox (insertPending p fresh) gen fresh
  rw [insertPending_count p fresh hfresh, ← awaitResolutions_def,
    hnores] at hcons
  simp only [List.length_nil] at hcons
  refine ⟨by rw [hsnd, hnores]; rfl, ?_, ?_⟩
  · rw [hfst]
    refine List.count_eq_zero.mp ?_
    rw [List.count_erase_self]
    omega
  · rw [hfst]
    have hsub := (processInbox_pending_sublist inbox (insertPending p fresh)
      gen).erase fresh
    rw [insertPending_not_mem p fresh hfresh,
      List.erase_append_right _ hfresh] at hsub
    simpa [List.erase_cons_head] using hsub

/-- **C4.**  An inbound `Response` (or `Error`) envelope whose
`in_reply_to` matches no pending correlation entry is silently dropped:
`handle_message` does not throw (it is total and returns the stated
record), does not alter the correlation table (the whole state is
unchanged), returns no reply and resolves no future. -/
theorem c4_dangling_reply_noop (p : A2AProtocol) (fresh : String) (now : Nat)
    (m : A2AMessage) (key : String)
    (hin : m.in_reply_to = some key)
    (hkind : m.message_type = MessageType.response ∨
      m.message_type = MessageType.error)
    (hmiss : key ∉ p.pending_responses) :
    handle_message p fresh now m =
      { state := p, reply := none, resolved := none } := by
  have hnp : ¬ resolvesPending p m := by
    rintro ⟨k, hk, _, hkmem⟩
    rw [hin] at hk
    cases hk
    exact hmiss hkmem
  rw [handle_message_eq_dispatch p fresh now m hnp]
  unfold dispatch
  rcases hkind with h | h <;> rw [h] <;> rfl

/-- Witness for `c4_dangling_reply_noop`: a response to an unknown id. -/
theorem c4_dangling_reply_noop_witness :
    (replyTo "ghost").in_reply_to = some "ghost" ∧
    ((replyTo "ghost").message_type = MessageType.response ∨
     (replyTo "ghost").message_type = MessageType.error) ∧
    "ghost" ∉ p0.pending_responses ∧
    handle_message p0 "f-1" 9 (replyTo "ghost") =
      { state := p0, reply := none, resolved := none } :=
  ⟨rfl, Or.inl rfl, by decide,
    c4_dangling_reply_noop p0 "f-1" 9 (replyTo "ghost") "ghost" rfl
      (Or.inl rfl) (by decide)⟩

/-- **C5, counterexample.**  The claim says `handle_message` invokes the
registered handler with `payload.params`.  It does not: the source calls
`self.message_handlers[action](message.payload)`, passing the whole
payload.  Observed with `echoActionHandler`, which returns the
`"action"` entry of whatever dict it is given: on `echoRequest` the
synthesized response carries result `"echo"` (the action key of the whole
payload), whereas the same handler applied to the request's params dict
(which has only the key `"x"`) yields `None`, a different value. -/
theorem c5_handler_argument_counterexample :
    ((handle_message echoProtocol "m-2" 1 echoRequest).reply.map
      (fun rep => pyGet rep.payload "result")) = some (Value.str "echo") ∧
    pyGet echoRequest.payload "params" = Value.dict [("x", Value.nat 1)] ∧
    echoActionHandler [("x", Value.nat 1)] = Except.ok Value.null ∧
    Value.str "echo" ≠ Value.null :=
  ⟨rfl, rfl, rfl, fun h => Value.noConfusion h⟩

/-- **C5, amended.**  For every inbound `Request` (not claiming a live
correlation entry) whose action has a registered handler,
`handle_message` invokes that handler with the entire message payload —
the handler extracts `params` itself, as `handle_workflow_news` does in
`src/main.py` — and on the handler's successful completion returns a
`Response` envelope addressed back to the request's `sender_id`, with
`in_reply_to` equal to the request's `message_id` and payload
`result`/`success: true`, leaving the protocol state untouched. -/
theorem c5_request_dispatch_amended (p : A2AProtocol) (fresh : String)
    (now : Nat) (m : A2AMessage) (a : String) (handler : Handler)
    (result : Value)
    (hkind : m.message_type = MessageType.request)
    (hnp : ¬ resolvesPending p m)
    (haction : pyGet m.payload "action" = Value.str a)
    (hreg : assocLookup p.message_handlers a = some handler)
    (hok : handler m.payload = Except.ok result) :
    (handle_message p fresh now m).state = p ∧
    ∃ rep, (handle_message p fresh now m).reply = some rep ∧
      rep.message_type = MessageType.response ∧
      rep.receiver_id = some m.sender_id ∧
      rep.in_reply_to = some m.message_id ∧
      rep.payload = [("result", result), ("success", Value.bool true)] := by
  rw [handle_message_eq_dispatch p fresh now m hnp]
  unfold dispatch
  rw [hkind, if_pos rfl]
  simp only [haction, hreg, hok]
  exact ⟨trivial, _, rfl, rfl, rfl, rfl, rfl⟩

/-- Witness for `c5_request_dispatch_amended` on `echoRequest`. -/
theorem c5_request_dispatch_amended_witness :
    (echoRequest.message_type = MessageType.request ∧
     ¬ resolvesPending echoProtocol echoRequest ∧
     pyGet echoRequest.payload "action" = Value.str "echo" ∧
     (assocLookup echoProtocol.message_handlers "echo").isSome = true ∧
     echoActionHandler echoRequest.payload = Except.ok (Value.str "echo")) ∧
    ((handle_message echoProtocol "m-2" 1 echoRequest).state = echoProtocol ∧
     ∃ rep, (handle_message echoProtocol "m-2" 1 echoRequest).reply =
        some rep ∧
      rep.message_type = MessageType.response ∧
      rep.receiver_id = some echoRequest.sender_id ∧
      rep.in_reply_to = some echoRequest.message_id ∧
      rep.payload = [("result", Value.str "echo"),
                     ("success", Value.bool true)]) :=
  ⟨⟨rfl, by decide, rfl, rfl, rfl⟩,
    c5_request_dispatch_amended echoProtocol "m-2" 1 echoRequest "echo"
      echoActionHandler (Value.str "echo") rfl (by decide) rfl rfl rfl⟩

/-- **C6.**  A registered handler that raises is isolated at the dispatch
boundary: `handle_message` returns (never re-raises — it is total) an
`Error` envelope addressed back to the sender with `in_reply_to` the
request's id and payload `error`/`success: false`, and the whole protocol
state — handler registry and correlation table included — is left
unaffected. -/
theorem c6_handler_failure_isolated (p : A2AProtocol) (fresh : String)
    (now : Nat) (m : A2AMessage) (a : String) (handler : Handler)
    (e : String)
    (hkind : m.message_type = MessageType.request)
    (hnp : ¬ resolvesPending p m)
    (haction : pyGet m.payload "action" = Value.str a)
    (hreg : assocLookup p.message_handlers a = some handler)
    (hfail : handler m.payload = Except.error e) :
    (handle_message p fresh now m).state = p ∧
    (handle_message p fresh now m).state.message_handlers =
      p.message_handlers ∧
    (handle_message p fresh now m).state.pending_responses =
      p.pending_responses ∧
    ∃ rep, (handle_message p fresh now m).reply = some rep ∧
      rep.message_type = MessageType.error ∧
      rep.receiver_id = some m.sender_id ∧
      rep.in_reply_to = some m.message_id ∧
      rep.payload = [("error", Value.str e), ("success", Value.bool false)] := by
  rw [handle_message_eq_dispatch p fresh now m hnp]
  unfold dispatch
  rw [hkind, if_pos rfl]
  simp only [haction, hreg, hfail]
  exact ⟨trivial, trivial, trivial, _, rfl, rfl, rfl, rfl, rfl⟩

/-- Witness for `c6_handler_failure_isolated`: a failing handler. -/
theorem c6_handler_failure_isolated_witness :
    (failRequest.message_type = MessageType.request ∧
     ¬ resolvesPending failProtocol failRequest ∧
     pyGet failRequest.payload "action" = Value.str "boom" ∧
     (assocLookup failProtocol.message_handlers "boom").isSome = true ∧
     failingHandler failRequest.payload = Except.error "kaput") ∧
    ((handle_message failProtocol "m-3" 2 failRequest).state =
      failProtocol ∧
     (handle_message failProtocol "m-3" 2 failRequest).state.message_handlers =
      failProtocol.message_handlers ∧
     (handle_message failProtocol "m-3" 2 failRequest).state.pending_responses =
      failProtocol.pending_responses ∧
     ∃ rep, (handle_message failProtocol "m-3" 2 failRequest).reply =
        some rep ∧
      rep.message_type = MessageType.error ∧
      rep.receiver_id = some failRequest.sender_id ∧
      rep.in_reply_to = some failRequest.message_id ∧
      rep.payload = [("error", Value.str "kaput"),
                     ("success", Value.bool false)]) :=
  ⟨⟨rfl, by decide, rfl, rfl, rfl⟩,
    c6_handler_failure_isolated failProtocol "m-3" 2 failRequest "boom"
      failingHandler "kaput" rfl (by decide) rfl rfl rfl⟩

/-- **C7.**  An inbound `Request` whose action names no registered handler
yields an `Error` envelope with `in_reply_to` the request's id, payload
`success := false` and error text exactly `"Unknown action: "` followed by
the action name. -/
theorem c7_unknown_action_error (p : A2AProtocol) (fresh : String)
    (now : Nat) (m : A2AMessage) (a : String)
    (hkind : m.message_type = MessageType.request)
    (hnp : ¬ resolvesPending p m)
    (haction : pyGet m.payload "action" = Value.str a)
    (hnreg : assocLookup p.message_handlers a = none) :
    ∃ rep, (handle_message p fresh now m).reply = some rep ∧
      rep.message_type = MessageType.error ∧
      rep.receiver_id = some m.sender_id ∧
      rep.in_reply_to = some m.message_id ∧
      rep.payload = [("error", Value.str ("Unknown action: " ++ a)),
                     ("success", Value.bool false)] ∧
      pyGet rep.payload "error" = Value.str ("Unknown action: " ++ a) ∧
      pyGet rep.payload "success" = Value.bool false := by
  rw [handle_message_eq_dispatch p fresh now m hnp]
  unfold dispatch
  rw [hkind, if_pos rfl]
  simp only [haction, hnreg]
  exact ⟨_, rfl, rfl, rfl, rfl, rfl, rfl, rfl⟩

/-- Witness for `c7_unknown_action_error`: `p0` has no handlers at all. -/
theorem c7_unknown_action_error_witness :
    (echoRequest.message_type = MessageType.request ∧
     ¬ resolvesPending p0 echoRequest ∧
     pyGet echoRequest.payload "action" = Value.str "echo" ∧
     assocLookup p0.message_handlers "echo" = none) ∧
    ∃ rep, (handle_message p0 "m-4" 3 echoRequest).reply = some rep ∧
      rep.message_type = MessageType.error ∧
      rep.receiver_id = some echoRequest.sender_id ∧
      rep.in_reply_to = some echoRequest.message_id ∧
      rep.payload = [("error", Value.str ("Unknown action: " ++ "echo")),
                     ("success", Value.bool false)] ∧
      pyGet rep.payload "error" = Value.str ("Unknown action: " ++ "echo") ∧
      pyGet rep.payload "success" = Value.bool false :=
  ⟨⟨rfl, by decide, rfl, rfl⟩,
    c7_unknown_action_error p0 "m-4" 3 echoRequest "echo" rfl (by decide)
      rfl rfl⟩

/-- **C8.**  `get_agents_by_capability` returns exactly the registered
agent records whose capability list contains the queried capability, in
directory insertion order (it is a sublist of the directory's value
sequence), the empty list when none match; and concretely, after
registering three agents with capability sets `{A}`, `{B}` and `{A, B}`,
querying `A` returns exactly the first and the third, in registration
order. -/
theorem c8_find_by_capability_correct (p : A2AProtocol)
    (cap : AgentCapability) :
    (get_agents_by_capability p cap).Sublist (p.known_agents.map Prod.snd) ∧
    (∀ a : AgentInfo, a ∈ get_agents_by_capability p cap ↔
      a ∈ p.known_agents.map Prod.snd ∧ cap ∈ a.capabilities) ∧
    ((∀ a ∈ p.known_agents.map Prod.snd, cap ∉ a.capabilities) →
      get_agents_by_capability p cap = []) ∧
    get_agents_by_capability threeAgentDirectory
        AgentCapability.data_retrieval = [agentAlpha, agentGamma] := by
  refine ⟨List.filter_sublist _, ?_, ?_, by decide⟩
  · intro a
    simp [get_agents_by_capability, List.mem_filter]
  · intro h
    unfold get_agents_by_capability
    refine List.filter_eq_nil_iff.mpr ?_
    intro a ha
    simpa using h a ha

/-- Witness for `c8_find_by_capability_correct` at the three-agent
directory. -/
theorem c8_find_by_capability_correct_witness :
    (get_agents_by_capability threeAgentDirectory
        AgentCapability.data_retrieval).Sublist
      (threeAgentDirectory.known_agents.map Prod.snd) ∧
    (∀ a : AgentInfo, a ∈ get_agents_by_capability threeAgentDirectory
        AgentCapability.data_retrieval ↔
      a ∈ threeAgentDirectory.known_agents.map Prod.snd ∧
        AgentCapability.data_retrieval ∈ a.capabilities) ∧
    ((∀ a ∈ threeAgentDirectory.known_agents.map Prod.snd,
        AgentCapability.data_retrieval ∉ a.capabilities) →
      get_agents_by_capability threeAgentDirectory
        AgentCapability.data_retrieval = []) ∧
    get_agents_by_capability threeAgentDirectory
        AgentCapability.data_retrieval = [agentAlpha, agentGamma] :=
  c8_find_by_capability_correct threeAgentDirectory
    AgentCapability.data_retrieval

/-- **C9.**  Any inbound message — whatever its kind, `Request` and
`Notification` included — whose `in_reply_to` names a live pending entry
resolves and removes that entry and returns nothing: the dispatch phase
is never reached, so even a `Request` whose action has a registered
handler produces no reply.  (`key ≠ ""` reflects that pending keys are
uuid4 strings, never empty; Python's truthiness test would skip an empty
key.) -/
theorem c9_matching_reply_always_resolves (p : A2AProtocol) (fresh : String)
    (now : Nat) (m : A2AMessage) (key : String)
    (hin : m.in_reply_to = some key) (hne : key ≠ "")
    (hmem : key ∈ p.pending_responses) :
    handle_message p fresh now m =
      { state := { p with pending_responses := p.pending_responses.erase key },
        reply := none,
        resolved := some (key, m) } :=
  handle_message_resolves p fresh now m key hin hne hmem

/-- Witness for `c9_matching_reply_always_resolves`: a `Request` whose
action (`"echo"`) has a registered handler but whose `in_reply_to` names
the live entry `"req-9"` resolves the entry and is not dispatched. -/
theorem c9_matching_reply_always_resolves_witness :
    (echoRequestReplying.in_reply_to = some "req-9" ∧
     "req-9" ≠ "" ∧
     "req-9" ∈ busyEchoProtocol.pending_responses ∧
     echoRequestReplying.message_type = MessageType.request ∧
     (assocLookup busyEchoProtocol.message_handlers "echo").isSome = true) ∧
    handle_message busyEchoProtocol "f-9" 2 echoRequestReplying =
      { state := { busyEchoProtocol with pending_responses :=
          busyEchoProtocol.pending_responses.erase "req-9" },
        reply := none,
        resolved := some ("req-9", echoRequestReplying) } :=
  ⟨⟨rfl, by decide, by decide, rfl, rfl⟩,
    c9_matching_reply_always_resolves busyEchoProtocol "f-9" 2
      echoRequestReplying "req-9" rfl (by decide) (by decide)⟩

/-- **C10.**  An inbound `Request` whose payload has no `"action"` key is
not rejected and raises nothing: `payload.get("action")` yields `None`,
which is not a key of the handler registry, so `handle_message` returns
the structured `Error` envelope with error text `"Unknown action: None"`
(Python renders `None` into the f-string), `success := false`, addressed
back to the sender with `in_reply_to` the request's id. -/
theorem c10_missing_action_unknown_none (p : A2AProtocol) (fresh : String)
    (now : Nat) (m : A2AMessage)
    (hkind : m.message_type = MessageType.request)
    (hnp : ¬ resolvesPending p m)
    (hact : assocLookup m.payload "action" = none) :
    ∃ rep, (handle_message p fresh now m).reply = some rep ∧
      rep.message_type = MessageType.error ∧
      rep.receiver_id = some m.sender_id ∧
      rep.in_reply_to = some m.message_id ∧
      pyGet rep.payload "error" = Value.str "Unknown action: None" ∧
      pyGet rep.payload "success" = Value.bool false := by
  have haction : pyGet m.payload "action" = Value.null := by
    unfold pyGet
    rw [hact]
    rfl
  rw [handle_message_eq_dispatch p fresh now m hnp]
  unfold dispatch
  rw [hkind, if_pos rfl]
  simp only [haction]
  exact ⟨_, rfl, rfl, rfl, rfl, rfl, rfl⟩

/-- Witness for `c10_missing_action_unknown_none`: a request whose
payload has only a `"params"` key. -/
theorem c10_missing_action_unknown_none_witness :
    (noActionRequest.message_type = MessageType.request ∧
     ¬ resolvesPending p0 noActionRequest ∧
     assocLookup noActionRequest.payload "action" = none) ∧
    ∃ rep, (handle_message p0 "m-5" 4 noActionRequest).reply = some rep ∧
      rep.message_type = MessageType.error ∧
      rep.receiver_id = some noActionRequest.sender_id ∧
      rep.in_reply_to = some noActionRequest.message_id ∧
      pyGet rep.payload "error" = Value.str "Unknown action: None" ∧
      pyGet rep.payload "success" = Value.bool false :=
  ⟨⟨rfl, by decide, rfl⟩,
    c10_missing_action_unknown_none p0 "m-5" 4 noActionRequest rfl
      (by decide) rfl⟩

/-- Witness for `c3_timeout_removes_entry`: an empty wait window times
out. -/
theorem c3_timeout_removes_entry_witness :
    "req-1" ∉ p0.pending_responses ∧
    resFor "req-1" (awaitResolutions p0 "req-1" 0 []) = [] ∧
    ((request_and_wait p0 "req-1" 0 0 "peer" "workflow.news" Value.null []).2 =
      none ∧
     "req-1" ∉ (request_and_wait p0 "req-1" 0 0 "peer" "workflow.news"
         Value.null []).1.pending_responses ∧
     (request_and_wait p0 "req-1" 0 0 "peer" "workflow.news" Value.null
         []).1.pending_responses.Sublist p0.pending_responses) :=
  ⟨by decide, rfl, c3_timeout_removes_entry p0 "req-1" 0 0 "peer"
    "workflow.news" Value.null [] (by decide) rfl⟩

end A2A
